import Mathlib

/-!
# Verification of the resource-allocation core of `ai-convobot`

This file gives a shallow embedding, in Lean 4, of the resource-allocation
core of the `ai-convobot` backend (files `token_budget.rs`, `gpu_allocator.rs`,
`system_memory.rs`, `context_manager.rs`) and proves or refutes the frozen
specification claims about it.

Conventions of the embedding:

* Rust `usize`/`u64` values are modelled as `Nat`.  No arithmetic in the
  modelled code can overflow a 64-bit machine word on its actual operating
  range, so plain `Nat` is faithful.
* Rust `f32` values that only ever hold hardware sizes, percentages or
  attitude dimensions are modelled as `ℚ` (exact rationals).  Where the
  source truncates an `f32` product of a `usize` with a constant
  (`(x as f32 * c) as usize`), the embedding uses exact natural floor
  arithmetic; a comment at each such site records why the `f32` computation
  agrees with the exact floor on the whole operating range of the program.
* Where an `f32` result of the source genuinely depends on the binary
  rounding of the constant (the `×1.3` factor of the token estimator), the
  rounding of IEEE-754 binary32 round-to-nearest-even is modelled exactly
  on naturals (`rne32Nat`, `mulOnePoint3F32` below).
* Rust strings are Lean `String`s; `str::len` (a byte count) is
  `String.utf8ByteSize`.
-/

namespace ConvoBot

/-! ## token_budget.rs : `TokenBudget` -/

/-- `VramTier` from `token_budget.rs`. -/
inductive VramTier where
  | Minimal   -- 0-2GB VRAM
  | Standard  -- 3-4GB VRAM
  | Extended  -- 5-6GB VRAM
  | Maximum   -- 7GB+ VRAM
  deriving Repr, DecidableEq

/-- `TokenBudget` from `token_budget.rs`. -/
structure TokenBudget where
  total : Nat
  system_prompt : Nat
  attitude_data : Nat
  third_party_info : Nat
  recent_messages : Nat
  response_buffer : Nat
  vram_tier : VramTier
  deriving Repr, DecidableEq

/-- `TokenBudget::from_vram_limit`.

The source computes each category as `(total as f32 * c) as usize` with
`c ∈ {0.15, 0.20, 0.10, 0.40, 0.15}`.  Here `total = min tierTotal maxConfigured
≤ 4096`, and for every `total ≤ 4096` the `f32` computation truncates to
exactly `total * p / 100` (`p ∈ {15,20,10,40,15}`): `total` converts to `f32`
exactly, the nearest-`f32` constants differ from the decimal values by a
relative error below `2⁻²⁴`, and `total * p / 100` is either an integer (then
the rounded product is at most half an ulp away from it and rounds back onto
it) or at least `1/20` away from every integer (far outside the error).  So
the exact floor `total * p / 100` is the value the Rust code produces. -/
def TokenBudget.from_vram_limit (vram_gb max_configured : Nat) : TokenBudget :=
  let tierTotal : VramTier × Nat :=
    if vram_gb ≤ 2 then (VramTier.Minimal, 1024)
    else if vram_gb ≤ 4 then (VramTier.Standard, 2048)
    else if vram_gb ≤ 6 then (VramTier.Extended, 3072)
    else (VramTier.Maximum, 4096)
  -- Use the smaller of calculated total or user configuration
  let total := min tierTotal.2 max_configured
  { total := total
    system_prompt := total * 15 / 100    -- 15% for system prompts
    attitude_data := total * 20 / 100    -- 20% for attitude/memory context
    third_party_info := total * 10 / 100 -- 10% for third-party information
    recent_messages := total * 40 / 100  -- 40% for recent conversation
    response_buffer := total * 15 / 100  -- 15% for response generation
    vram_tier := tierTotal.1 }

/-- C1: for every `vram_gb` and `max_configured`, the `TokenBudget` produced by
`TokenBudget::from_vram_limit` satisfies
`system_prompt + attitude_data + third_party_info + recent_messages +
response_buffer ≤ total`, each category being the truncated
15/20/10/40/15 percent share of `total`. -/
theorem tokenBudget_categories_le_total (vram_gb max_configured : Nat) :
    (TokenBudget.from_vram_limit vram_gb max_configured).system_prompt
      + (TokenBudget.from_vram_limit vram_gb max_configured).attitude_data
      + (TokenBudget.from_vram_limit vram_gb max_configured).third_party_info
      + (TokenBudget.from_vram_limit vram_gb max_configured).recent_messages
      + (TokenBudget.from_vram_limit vram_gb max_configured).response_buffer
      ≤ (TokenBudget.from_vram_limit vram_gb max_configured).total := by
  unfold TokenBudget.from_vram_limit
  set t := min (if vram_gb ≤ 2 then (VramTier.Minimal, 1024)
    else if vram_gb ≤ 4 then (VramTier.Standard, 2048)
    else if vram_gb ≤ 6 then (VramTier.Extended, 3072)
    else (VramTier.Maximum, 4096)).2 max_configured with ht
  simp only
  have h15 : t * 15 / 100 * 100 ≤ t * 15 := Nat.div_mul_le_self _ _
  have h20 : t * 20 / 100 * 100 ≤ t * 20 := Nat.div_mul_le_self _ _
  have h10 : t * 10 / 100 * 100 ≤ t * 10 := Nat.div_mul_le_self _ _
  have h40 : t * 40 / 100 * 100 ≤ t * 40 := Nat.div_mul_le_self _ _
  omega

/-- C8: `from_vram_limit(4, 4096)` yields total 2048, tier Standard, and
category sizes 307/409/204/819/307; `from_vram_limit(2, 4096)` yields total
1024, tier Minimal. -/
theorem tokenBudget_concrete_allocations :
    TokenBudget.from_vram_limit 4 4096 =
      { total := 2048, system_prompt := 307, attitude_data := 409,
        third_party_info := 204, recent_messages := 819, response_buffer := 307,
        vram_tier := VramTier.Standard }
    ∧ (TokenBudget.from_vram_limit 2 4096).total = 1024
    ∧ (TokenBudget.from_vram_limit 2 4096).vram_tier = VramTier.Minimal := by
  refine ⟨?_, rfl, rfl⟩
  decide

/-! ## token_budget.rs : `TokenUsageMonitor` state -/

/-- `TokenUsage` from `token_budget.rs` (`#[derive(Default)]`). -/
structure TokenUsage where
  system_tokens : Nat := 0
  attitude_tokens : Nat := 0
  third_party_tokens : Nat := 0
  message_tokens : Nat := 0
  total_context_tokens : Nat := 0
  deriving Repr, DecidableEq

/-- `OptimizationStats` from `token_budget.rs` (`#[derive(Default)]`). -/
structure OptimizationStats where
  messages_compressed : Nat := 0
  attitudes_filtered : Nat := 0
  third_parties_filtered : Nat := 0
  total_savings : Nat := 0
  overflow_events : Nat := 0
  deriving Repr, DecidableEq

/-- `TokenUsageMonitor` from `token_budget.rs`. -/
structure TokenUsageMonitor where
  budget : TokenBudget
  current_usage : TokenUsage
  optimization_stats : OptimizationStats
  deriving Repr, DecidableEq

/-- `TokenUsageMonitor::new`. -/
def TokenUsageMonitor.new (budget : TokenBudget) : TokenUsageMonitor :=
  { budget := budget, current_usage := {}, optimization_stats := {} }

/-- `TokenUsageStatistics` from `token_budget.rs`. -/
structure TokenUsageStatistics where
  budget : TokenBudget
  current_usage : TokenUsage
  remaining_response_tokens : Nat
  utilization_percentage : Nat
  optimization_stats : OptimizationStats
  overflow_risk : Bool
  deriving Repr, DecidableEq

/-- `TokenUsageMonitor::get_usage_statistics` (`&mut self`; returns the updated
monitor together with the statistics).

`f32` notes: `overflow_risk` is `total_context > (total as f32 * 0.85) as usize`;
for every `total ≤ 4096` (all budgets built by `from_vram_limit` satisfy this)
the truncated `f32` product equals `total * 85 / 100` exactly (0.85 rounds up
to its nearest `f32` by less than `2⁻²⁴` relative error, and `total * 17/20`
is an integer or at least `1/20` from one).  `utilization_percentage` is a
truncated `f32` quotient cast to `u8` (saturating; `0/0` casts to 0): on the
operating range it equals `min 255 (x * 100 / total)`; it is modelled so here
and is referenced by no claim.  The `overflow_events` test subtracts
`response_buffer` from `total` in `usize`; `Nat` subtraction matches because
`response_buffer ≤ total` in every budget the program builds. -/
def TokenUsageMonitor.get_usage_statistics (m : TokenUsageMonitor) :
    TokenUsageMonitor × TokenUsageStatistics :=
  let totalContext := m.current_usage.system_tokens + m.current_usage.attitude_tokens
    + m.current_usage.third_party_tokens + m.current_usage.message_tokens
  let usage := { m.current_usage with total_context_tokens := totalContext }
  let remaining := min m.budget.response_buffer (m.budget.total - totalContext)
  let totalUtilization := totalContext + remaining
  let utilizationPercentage :=
    if m.budget.total = 0 then (if totalUtilization = 0 then 0 else 255)
    else min 255 (totalUtilization * 100 / m.budget.total)
  let stats :=
    if m.budget.total - m.budget.response_buffer < totalContext then
      { m.optimization_stats with
        overflow_events := m.optimization_stats.overflow_events + 1 }
    else m.optimization_stats
  ({ m with current_usage := usage, optimization_stats := stats },
   { budget := m.budget
     current_usage := usage
     remaining_response_tokens := remaining
     utilization_percentage := utilizationPercentage
     optimization_stats := stats
     overflow_risk := decide (m.budget.total * 85 / 100 < totalContext) })

/-- C6: `get_usage_statistics` reports `overflow_risk = true` exactly when the
sum of the recorded category usages exceeds 85% of the total budget (and
`false` when the sum is at most 85% of it). -/
theorem overflowRisk_iff_usage_gt_85_percent (m : TokenUsageMonitor) :
    ((m.get_usage_statistics).2.overflow_risk = true ↔
      85 * m.budget.total < 100 * (m.current_usage.system_tokens
        + m.current_usage.attitude_tokens + m.current_usage.third_party_tokens
        + m.current_usage.message_tokens)) := by
  unfold TokenUsageMonitor.get_usage_statistics
  simp only [decide_eq_true_eq]
  rw [Nat.div_lt_iff_lt_mul (by norm_num : (0:Nat) < 100)]
  omega

/-! ## token_budget.rs : `TokenUsageMonitor::estimate_tokens`

The estimator mixes exact integer data (word count, byte count) with one
genuinely `f32`-dependent step, the `word_count as f32 * 1.3` product
(`1.3f32 = 10905190 / 2²³`, strictly below 1.3).  IEEE-754 binary32
round-to-nearest-even is modelled exactly on naturals below. -/

/-- Round a natural number to the nearest IEEE-754 binary32-representable
value (24-bit significand, ties to even).  Numbers up to `2²⁴` are exact.
This models the value of `n as f32` for a `usize` n. -/
def rne32Nat (n : Nat) : Nat :=
  if n ≤ 16777216 then n
  else
    let b := n.log2
    let shift := b - 23
    let q := n / 2 ^ shift
    let r := n % 2 ^ shift
    let half := 2 ^ (shift - 1)
    let q2 := if half < r ∨ (r = half ∧ q % 2 = 1) then q + 1 else q
    q2 * 2 ^ shift

/-- `(w as f32 * 1.3) as usize` for a `usize` already equal to its `f32`
value `w`: the exact product is `w * 10905190 / 2²³` (as `1.3f32 =
10905190/2²³`); it is rounded to the nearest binary32 value and then
truncated towards zero.  When the product's numerator fits in 24 bits the
value is exact and only the final floor applies. -/
def mulOnePoint3F32 (w : Nat) : Nat :=
  let n := w * 10905190
  if n ≤ 16777216 then n / 8388608
  else
    let b := n.log2
    let shift := b - 23
    let q := n / 2 ^ shift
    let r := n % 2 ^ shift
    let half := 2 ^ (shift - 1)
    let q2 := if half < r ∨ (r = half ∧ q % 2 = 1) then q + 1 else q
    q2 * 2 ^ shift / 8388608

/-- Number of maximal whitespace-free runs in a character list: the length of
Rust's `split_whitespace()` iterator.  (Rust recognises all Unicode
whitespace; `Char.isWhitespace` covers the ASCII subset, which is what every
string built by this program contains.  No claim depends on the exotic
cases.) -/
def countWords : List Char → Bool → Nat
  | [], _ => 0
  | c :: rest, inWord =>
    if c.isWhitespace then countWords rest false
    else (if inWord then 0 else 1) + countWords rest true

/-- `TokenUsageMonitor::estimate_tokens`.  `text.len()` in Rust is the byte
length, i.e. `String.utf8ByteSize`; `text.is_empty()` is equality with `""`.
`(char_count as f32 / 4.0) as usize` is an exact binade shift after the
(possibly rounded) `usize → f32` conversion, hence `rne32Nat char_count / 4`. -/
def TokenUsageMonitor.estimate_tokens (text : String) : Nat :=
  if text = "" then 0
  else
    let word_count := countWords text.data false
    let char_count := text.utf8ByteSize
    let word_estimate := mulOnePoint3F32 (rne32Nat word_count)
    let char_estimate := rne32Nat char_count / 4
    -- Take the larger estimate for safety margin
    max (max word_estimate char_estimate) 1

/-- C10: `estimate_tokens` returns 0 exactly on the empty string and at least
1 on every non-empty string (whitespace-only short strings included, where
the plain `max(words×1.3, chars/4)` formula would give 0). -/
theorem estimateTokens_zero_iff_empty (s : String) :
    (TokenUsageMonitor.estimate_tokens s = 0 ↔ s = "")
    ∧ (s ≠ "" → 1 ≤ TokenUsageMonitor.estimate_tokens s) := by
  unfold TokenUsageMonitor.estimate_tokens
  by_cases h : s = "" <;> simp [h]

/-- Witness for C10 at the whitespace-only one-character string `" "`. -/
theorem estimateTokens_zero_iff_empty_witness :
    (" " : String) ≠ "" ∧ 1 ≤ TokenUsageMonitor.estimate_tokens " " :=
  ⟨by decide, (estimateTokens_zero_iff_empty " ").2 (by decide)⟩

/-! ## gpu_allocator.rs -/

/-- `GpuMemoryInfo` from `gpu_allocator.rs` (`total/available/used` are `u64`
megabyte counts; the utilization percentage is `f32`, modelled as `ℚ`). -/
structure GpuMemoryInfo where
  total_vram_mb : Nat
  available_vram_mb : Nat
  used_vram_mb : Nat
  utilization_percent : ℚ
  device_name : String
  driver_version : String
  deriving Repr, DecidableEq

/-- `AllocationStrategy` from `gpu_allocator.rs`. -/
inductive AllocationStrategy where
  | MaxGpu
  | Balanced
  | Conservative
  | CpuFallback
  | Aggressive -- New strategy for systems with 3.5GB+ VRAM
  deriving Repr, DecidableEq

/-- `LayerAllocation` from `gpu_allocator.rs`. -/
structure LayerAllocation where
  gpu_layers : Nat
  cpu_layers : Nat
  total_layers : Nat
  estimated_vram_usage_mb : Nat
  allocation_strategy : AllocationStrategy
  deriving Repr, DecidableEq

/-- `ModelQuantization` from `gpu_allocator.rs`. -/
inductive ModelQuantization where
  | F16
  | Q8_0
  | Q5_K_M
  | Q4_K_M
  | Q4_0
  | Q3_K_M
  | Q2_K
  deriving Repr, DecidableEq

/-- `ModelQuantization::bytes_per_param` (`f32` constants, modelled by the
exact decimal values; their nearest-`f32` perturbations cancel in the
`(params × bpp) / bpp` round-trip this program performs with them). -/
def ModelQuantization.bytes_per_param : ModelQuantization → ℚ
  | .F16 => 2
  | .Q8_0 => 1
  | .Q5_K_M => 0.64
  | .Q4_K_M => 0.60
  | .Q4_0 => 0.5
  | .Q3_K_M => 0.41
  | .Q2_K => 0.33

/-- Rust `str::contains(pattern)`: byte-substring search, equivalent to
char-list infix containment. -/
def strContains (hay pat : String) : Bool :=
  decide (pat.data <:+: hay.data)

/-- `ModelQuantization::from_model_name`. -/
def ModelQuantization.from_model_name (model_path : String) : ModelQuantization :=
  let path_lower := model_path.toLower
  if strContains path_lower "q2_k" then .Q2_K
  else if strContains path_lower "q3_k_m" then .Q3_K_M
  else if strContains path_lower "q4_0" then .Q4_0
  else if strContains path_lower "q4_k_m" then .Q4_K_M
  else if strContains path_lower "q5_k_m" then .Q5_K_M
  else if strContains path_lower "q8_0" then .Q8_0
  else .Q4_K_M -- Default assumption for unknown models

/-- `GpuAllocator` from `gpu_allocator.rs`: a safety margin fraction
(`f32`, default 0.8, clamped to `[0.1, 1.0]` by its builder) and a minimum
free VRAM reserve in MB (default 512). -/
structure GpuAllocator where
  safety_margin_percent : ℚ
  min_free_vram_mb : Nat
  deriving Repr, DecidableEq

/-- `GpuAllocator::default()` / `GpuAllocator::new()`. -/
def GpuAllocator.new : GpuAllocator :=
  { safety_margin_percent := 0.8, min_free_vram_mb := 512 }

/-- Clamping the available VRAM to the configured ceiling, shared by both
layer calculators: `(limit_gb * 1024.0) as u64` is a truncating
(`0`-saturating) cast of an exact power-of-two `f32` scaling, i.e.
`⌊limit_gb * 1024⌋` clamped to `ℕ`. -/
def effectiveAvailableVram (gpu_info : GpuMemoryInfo) : Option ℚ → Nat
  | some limit_gb => min gpu_info.available_vram_mb (⌊limit_gb * 1024⌋.toNat)
  | none => gpu_info.available_vram_mb

/-- Strategy classification of `calculate_optimal_layers_v2` (the final
`if`-chain of the source, verbatim).  `(total_layers as f32 * 0.8) as usize`
equals `total_layers * 8 / 10` for every layer count below `2²⁴`. -/
def v2Classify (total_vram_mb max_gpu_layers total_layers : Nat) :
    Nat × AllocationStrategy :=
  if max_gpu_layers = 0 then (0, .CpuFallback)
  else if total_layers ≤ max_gpu_layers then (total_layers, .MaxGpu)
  else if 3500 ≤ total_vram_mb ∧ total_layers * 8 / 10 ≤ max_gpu_layers then
    -- Use aggressive strategy for high VRAM systems that can fit 80%+ of layers
    (max_gpu_layers, .Aggressive)
  else if total_layers / 2 ≤ max_gpu_layers then (max_gpu_layers, .Balanced)
  else (max_gpu_layers, .Conservative)

/-- Strategy classification of the legacy `calculate_optimal_layers`
(the final `if`-chain of the source, verbatim). -/
def legacyClassify (max_gpu_layers total_layers : Nat) :
    Nat × AllocationStrategy :=
  if max_gpu_layers = 0 then (0, .CpuFallback)
  else if total_layers ≤ max_gpu_layers then (total_layers, .MaxGpu)
  else if total_layers / 2 ≤ max_gpu_layers then (max_gpu_layers, .Balanced)
  else (max_gpu_layers, .Conservative)

/-- `GpuAllocator::calculate_optimal_layers_v2`.

`f32` notes: the safety-margin products truncate to `⌊e·margin⌋` (the margin
constants 0.90/0.85 round to `f32` within `2⁻²⁴` relative error; for every
megabyte count in a 64-bit machine's VRAM range the truncated `f32` product
equals the exact floor).  The per-layer cost chain
`ceil(((size/bpp)/layers)·bpp / 1024 / 1024)` is evaluated in exact rational
arithmetic; with `layers = 0` Rust produces an infinite/NaN per-layer cost
whose `as u64` cast forces `max_gpu_layers = 0`, and `ℚ` division by zero
produces `vram_per_layer_mb = 0` which forces the same `CpuFallback`
outcome with the same `estimated_vram_usage_mb`. -/
def GpuAllocator.calculate_optimal_layers_v2 (a : GpuAllocator)
    (gpu_info : GpuMemoryInfo) (model_path : String)
    (model_size_mb total_layers : Nat) (vram_limit_gb : Option ℚ) :
    LayerAllocation :=
  let quantization := ModelQuantization.from_model_name model_path
  -- Apply VRAM limit if specified
  let effective := effectiveAvailableVram gpu_info vram_limit_gb
  -- Use aggressive allocation for systems with 3.5GB+ VRAM
  let marginReserve : ℚ × Nat :=
    if 3500 ≤ gpu_info.total_vram_mb then (0.90, 256)
    else if 2048 ≤ gpu_info.total_vram_mb then (0.85, 384)
    else (a.safety_margin_percent, a.min_free_vram_mb)
  -- Apply safety margin
  let safe_vram_mb := ⌊(effective : ℚ) * marginReserve.1⌋.toNat
  let usable_vram_mb := safe_vram_mb - marginReserve.2
  let base_model_params : ℚ := (model_size_mb : ℚ) / quantization.bytes_per_param
  let params_per_layer : ℚ := base_model_params / (total_layers : ℚ)
  let kv_cache_overhead_mb := 200 -- Reserve for KV cache and context
  let arch_overhead_mb := 100     -- Reserve for model architecture overhead
  let vram_per_layer_mb :=
    ⌈(params_per_layer * quantization.bytes_per_param) / 1024 / 1024⌉.toNat
  let reserved_vram := kv_cache_overhead_mb + arch_overhead_mb
  let layers_vram_budget := usable_vram_mb - reserved_vram
  -- Calculate maximum layers that fit in VRAM
  let max_gpu_layers :=
    if 0 < vram_per_layer_mb ∧ 0 < layers_vram_budget then
      min (layers_vram_budget / vram_per_layer_mb) total_layers
    else 0
  let sel := v2Classify gpu_info.total_vram_mb max_gpu_layers total_layers
  { gpu_layers := sel.1
    cpu_layers := total_layers - sel.1
    total_layers := total_layers
    estimated_vram_usage_mb := sel.1 * vram_per_layer_mb + reserved_vram
    allocation_strategy := sel.2 }

/-- `GpuAllocator::calculate_optimal_layers` (legacy). -/
def GpuAllocator.calculate_optimal_layers (a : GpuAllocator)
    (gpu_info : GpuMemoryInfo) (model_size_mb total_layers : Nat)
    (vram_limit_gb : Option ℚ) : LayerAllocation :=
  -- Apply VRAM limit if specified
  let effective := effectiveAvailableVram gpu_info vram_limit_gb
  -- Apply safety margin
  let safe_vram_mb := ⌊(effective : ℚ) * a.safety_margin_percent⌋.toNat
  let usable_vram_mb := safe_vram_mb - a.min_free_vram_mb
  -- Estimate VRAM usage per layer (rough approximation)
  let vram_per_layer_mb :=
    if 0 < total_layers then model_size_mb / total_layers else model_size_mb
  -- Calculate maximum layers that fit in VRAM
  let max_gpu_layers :=
    if 0 < vram_per_layer_mb ∧ 0 < usable_vram_mb then
      min (usable_vram_mb / vram_per_layer_mb) total_layers
    else 0
  let sel := legacyClassify max_gpu_layers total_layers
  { gpu_layers := sel.1
    cpu_layers := total_layers - sel.1
    total_layers := total_layers
    estimated_vram_usage_mb := sel.1 * vram_per_layer_mb
    allocation_strategy := sel.2 }

/-- The maximum-fitting-layers expression of both calculators is bounded by
the total layer count. -/
theorem maxLayersLe (cond : Prop) [Decidable cond] (e T : Nat) :
    (if cond then min e T else 0) ≤ T := by
  split
  · exact Nat.min_le_right _ _
  · exact Nat.zero_le _

/-- In every branch of the v2 strategy chain the selected layer count is the
computed maximum (the `MaxGpu` branch selects `total_layers`, which then
equals `max_gpu_layers` because the latter never exceeds the former). -/
theorem v2Classify_fst (v mx T : Nat) (h : mx ≤ T) : (v2Classify v mx T).1 = mx := by
  unfold v2Classify
  repeat' split
  all_goals simp_all
  all_goals omega

/-- Same for the legacy chain. -/
theorem legacyClassify_fst (mx T : Nat) (h : mx ≤ T) : (legacyClassify mx T).1 = mx := by
  unfold legacyClassify
  repeat' split
  all_goals simp_all
  all_goals omega

/-- C2: both layer calculators return an allocation with
`gpu_layers + cpu_layers = total_layers` and `gpu_layers ≤ total_layers`. -/
theorem layerAllocation_split_invariant (a : GpuAllocator)
    (gpu_info : GpuMemoryInfo) (model_path : String)
    (model_size_mb total_layers : Nat) (vram_limit_gb : Option ℚ) :
    ((a.calculate_optimal_layers_v2 gpu_info model_path model_size_mb
        total_layers vram_limit_gb).gpu_layers
      + (a.calculate_optimal_layers_v2 gpu_info model_path model_size_mb
        total_layers vram_limit_gb).cpu_layers = total_layers
    ∧ (a.calculate_optimal_layers_v2 gpu_info model_path model_size_mb
        total_layers vram_limit_gb).gpu_layers ≤ total_layers)
    ∧ ((a.calculate_optimal_layers gpu_info model_size_mb
        total_layers vram_limit_gb).gpu_layers
      + (a.calculate_optimal_layers gpu_info model_size_mb
        total_layers vram_limit_gb).cpu_layers = total_layers
    ∧ (a.calculate_optimal_layers gpu_info model_size_mb
        total_layers vram_limit_gb).gpu_layers ≤ total_layers) := by
  refine ⟨⟨?_, ?_⟩, ⟨?_, ?_⟩⟩ <;>
    simp only [GpuAllocator.calculate_optimal_layers_v2,
      GpuAllocator.calculate_optimal_layers]
  · rw [v2Classify_fst _ _ _ (maxLayersLe _ _ _)]
    exact Nat.add_sub_cancel' (maxLayersLe _ _ _)
  · rw [v2Classify_fst _ _ _ (maxLayersLe _ _ _)]
    exact maxLayersLe _ _ _
  · rw [legacyClassify_fst _ _ (maxLayersLe _ _ _)]
    exact Nat.add_sub_cancel' (maxLayersLe _ _ _)
  · rw [legacyClassify_fst _ _ (maxLayersLe _ _ _)]
    exact maxLayersLe _ _ _

/-- Ordering on configured VRAM limits, with the unlimited `None` case as the
largest element. -/
def vramLimitLe : Option ℚ → Option ℚ → Prop
  | _, none => True
  | some x, some y => x ≤ y
  | none, some _ => False

/-- Raising the configured VRAM limit never lowers the clamped available
VRAM. -/
theorem effectiveAvailableVram_mono (g : GpuMemoryInfo) {l1 l2 : Option ℚ}
    (h : vramLimitLe l1 l2) :
    effectiveAvailableVram g l1 ≤ effectiveAvailableVram g l2 := by
  cases l1 with
  | none =>
    cases l2 with
    | none => exact le_rfl
    | some y => exact h.elim
  | some x =>
    cases l2 with
    | none => exact Nat.min_le_left _ _
    | some y =>
      have hxy : x ≤ y := h
      refine min_le_min le_rfl (Int.toNat_le_toNat (Int.floor_le_floor ?_))
      exact mul_le_mul_of_nonneg_right hxy (by norm_num)

/-- The maximum-fitting-layers expression is monotone in the VRAM budget. -/
theorem maxLayersMono (vpl b1 b2 T : Nat) (h : b1 ≤ b2) :
    (if 0 < vpl ∧ 0 < b1 then min (b1 / vpl) T else 0)
      ≤ (if 0 < vpl ∧ 0 < b2 then min (b2 / vpl) T else 0) := by
  by_cases hc : 0 < vpl ∧ 0 < b1
  · rw [if_pos hc, if_pos ⟨hc.1, Nat.lt_of_lt_of_le hc.2 h⟩]
    exact min_le_min (Nat.div_le_div_right h) le_rfl
  · rw [if_neg hc]
    exact Nat.zero_le _

/-- C7: for a fixed GPU snapshot, model path, model size and layer count,
`calculate_optimal_layers_v2` computes a `gpu_layers` value that is monotone
non-decreasing in the configured VRAM limit (with `None`, the unlimited
case, as the largest limit).  The safety-margin fraction of every allocator
the program can build is non-negative (the default is 0.8 and the builder
clamps to `[0.1, 1.0]`), stated here as a hypothesis. -/
theorem gpuLayers_monotone_in_vram_limit (a : GpuAllocator)
    (gpu_info : GpuMemoryInfo) (model_path : String)
    (model_size_mb total_layers : Nat) (l1 l2 : Option ℚ)
    (hm : 0 ≤ a.safety_margin_percent) (hl : vramLimitLe l1 l2) :
    (a.calculate_optimal_layers_v2 gpu_info model_path model_size_mb
        total_layers l1).gpu_layers
      ≤ (a.calculate_optimal_layers_v2 gpu_info model_path model_size_mb
        total_layers l2).gpu_layers := by
  simp only [GpuAllocator.calculate_optimal_layers_v2]
  rw [v2Classify_fst _ _ _ (maxLayersLe _ _ _),
    v2Classify_fst _ _ _ (maxLayersLe _ _ _)]
  apply maxLayersMono
  apply Nat.sub_le_sub_right
  apply Nat.sub_le_sub_right
  apply Int.toNat_le_toNat
  apply Int.floor_mono
  apply mul_le_mul_of_nonneg_right
  · exact_mod_cast effectiveAvailableVram_mono gpu_info hl
  · split
    · norm_num
    · split
      · norm_num
      · exact hm

/-- Witness for C7 at a concrete allocator, GPU snapshot and pair of limits
2 GB ≤ 4 GB. -/
theorem gpuLayers_monotone_in_vram_limit_witness :
    0 ≤ GpuAllocator.new.safety_margin_percent
    ∧ vramLimitLe (some 2) (some 4)
    ∧ (GpuAllocator.new.calculate_optimal_layers_v2
        { total_vram_mb := 8192, available_vram_mb := 6144, used_vram_mb := 2048,
          utilization_percent := 25, device_name := "Test GPU",
          driver_version := "1.0" }
        "model.q4_k_m.gguf" 4096 32 (some 2)).gpu_layers
      ≤ (GpuAllocator.new.calculate_optimal_layers_v2
        { total_vram_mb := 8192, available_vram_mb := 6144, used_vram_mb := 2048,
          utilization_percent := 25, device_name := "Test GPU",
          driver_version := "1.0" }
        "model.q4_k_m.gguf" 4096 32 (some 4)).gpu_layers := by
  have hm : 0 ≤ GpuAllocator.new.safety_margin_percent := by
    show (0:ℚ) ≤ 0.8
    norm_num
  have hl : vramLimitLe (some 2) (some 4) := by
    show (2:ℚ) ≤ 4
    norm_num
  exact ⟨hm, hl, gpuLayers_monotone_in_vram_limit _ _ _ _ _ _ _ hm hl⟩

/-! ## system_memory.rs -/

/-- `SystemMemoryInfo` from `system_memory.rs` (`f32` fields as `ℚ`). -/
structure SystemMemoryInfo where
  total_ram_gb : ℚ
  available_ram_gb : ℚ
  used_ram_gb : ℚ
  utilization_percent : ℚ
  platform : String
  detection_method : String
  deriving Repr, DecidableEq

/-- `MemoryStrategy` from `system_memory.rs`. -/
inductive MemoryStrategy where
  | VramOnly     -- <8GB system RAM or high utilization
  | Conservative -- 8-16GB system RAM: use 25% of available
  | Balanced     -- 16-32GB system RAM: use 50% of available
  | Aggressive   -- 32GB+ system RAM: use up to 75% of available
  deriving Repr, DecidableEq

/-- `MemoryAllocation` from `system_memory.rs`. -/
structure MemoryAllocation where
  available_for_context_gb : ℚ
  safety_margin_gb : ℚ
  recommended_usage_gb : ℚ
  allocation_strategy : MemoryStrategy
  deriving Repr, DecidableEq

/-- `SystemMemoryDetector` from `system_memory.rs`. -/
structure SystemMemoryDetector where
  safety_margin_gb : ℚ
  max_usage_gb : ℚ
  deriving Repr, DecidableEq

/-- `SystemMemoryDetector::default()` / `::new()`. -/
def SystemMemoryDetector.new : SystemMemoryDetector :=
  { safety_margin_gb := 2, max_usage_gb := 8 }

/-- `SystemMemoryDetector::with_safety_margin` (minimum 0.5GB margin). -/
def SystemMemoryDetector.with_safety_margin (d : SystemMemoryDetector)
    (margin_gb : ℚ) : SystemMemoryDetector :=
  { d with safety_margin_gb := max margin_gb 0.5 }

/-- `SystemMemoryDetector::with_max_usage` (minimum 1GB max usage). -/
def SystemMemoryDetector.with_max_usage (d : SystemMemoryDetector)
    (max_gb : ℚ) : SystemMemoryDetector :=
  { d with max_usage_gb := max max_gb 1 }

/-- `SystemMemoryDetector::determine_strategy`.  The Rust code matches on
`total_ram_gb as u32`, a truncating, `0`- and `u32::MAX`-saturating cast of
the `f32` total; `⌊·⌋.toNat` reproduces it on every bucket boundary the
match distinguishes. -/
def SystemMemoryDetector.determine_strategy (d : SystemMemoryDetector)
    (memory_info : SystemMemoryInfo) : MemoryStrategy :=
  -- Check if system is under memory pressure
  if 85 < memory_info.utilization_percent ∨ memory_info.available_ram_gb < 4 then
    .VramOnly
  else
    -- Determine strategy based on total RAM
    let t := ⌊memory_info.total_ram_gb⌋.toNat
    if t ≤ 7 then .VramOnly
    else if t ≤ 15 then .Conservative
    else if t ≤ 31 then .Balanced
    else .Aggressive

/-- `SystemMemoryDetector::calculate_memory_allocation`.  The 0.25/0.50/0.75
fractions are exact in `f32` up to one rounding of the final product; the
claim's formula is stated in exact rational arithmetic, as is the model. -/
def SystemMemoryDetector.calculate_memory_allocation (d : SystemMemoryDetector)
    (memory_info : SystemMemoryInfo) : MemoryAllocation :=
  let available_after_safety :=
    max (memory_info.available_ram_gb - d.safety_margin_gb) 0
  let strategy := d.determine_strategy memory_info
  let recommended_usage_gb : ℚ :=
    match strategy with
    | .VramOnly => 0
    | .Conservative => min (available_after_safety * 0.25) d.max_usage_gb
    | .Balanced => min (available_after_safety * 0.50) d.max_usage_gb
    | .Aggressive => min (available_after_safety * 0.75) d.max_usage_gb
  { available_for_context_gb := available_after_safety
    safety_margin_gb := d.safety_margin_gb
    recommended_usage_gb := max recommended_usage_gb 0
    allocation_strategy := strategy }

/-- `SystemMemoryDetector::is_memory_pressure`. -/
def SystemMemoryDetector.is_memory_pressure (d : SystemMemoryDetector)
    (memory_info : SystemMemoryInfo) : Bool :=
  decide (85 < memory_info.utilization_percent
    ∨ memory_info.available_ram_gb < d.safety_margin_gb)

/-- The strategy buckets of `determine_strategy`, re-expressed on the exact
rational RAM size: the `u32` truncation is equivalent to half-open interval
tests on the `f32` total. -/
theorem determine_strategy_eq (d : SystemMemoryDetector) (m : SystemMemoryInfo) :
    d.determine_strategy m =
      (if 85 < m.utilization_percent ∨ m.available_ram_gb < 4 then
        MemoryStrategy.VramOnly
      else if m.total_ram_gb < 8 then MemoryStrategy.VramOnly
      else if m.total_ram_gb < 16 then MemoryStrategy.Conservative
      else if m.total_ram_gb < 32 then MemoryStrategy.Balanced
      else MemoryStrategy.Aggressive) := by
  unfold SystemMemoryDetector.determine_strategy
  by_cases hp : 85 < m.utilization_percent ∨ m.available_ram_gb < 4
  · rw [if_pos hp, if_pos hp]
  · rw [if_neg hp, if_neg hp]
    simp only
    have l8 : ⌊m.total_ram_gb⌋ < 8 ↔ m.total_ram_gb < 8 := by
      rw [Int.floor_lt]; norm_num
    have l16 : ⌊m.total_ram_gb⌋ < 16 ↔ m.total_ram_gb < 16 := by
      rw [Int.floor_lt]; norm_num
    have l32 : ⌊m.total_ram_gb⌋ < 32 ↔ m.total_ram_gb < 32 := by
      rw [Int.floor_lt]; norm_num
    by_cases h8 : m.total_ram_gb < 8
    · have hf : ⌊m.total_ram_gb⌋ < 8 := l8.mpr h8
      rw [if_pos (by omega : ⌊m.total_ram_gb⌋.toNat ≤ 7), if_pos h8]
    · have hf : ¬ ⌊m.total_ram_gb⌋ < 8 := fun hc => h8 (l8.mp hc)
      rw [if_neg (by omega : ¬ ⌊m.total_ram_gb⌋.toNat ≤ 7), if_neg h8]
      by_cases h16 : m.total_ram_gb < 16
      · have hg : ⌊m.total_ram_gb⌋ < 16 := l16.mpr h16
        rw [if_pos (by omega : ⌊m.total_ram_gb⌋.toNat ≤ 15), if_pos h16]
      · have hg : ¬ ⌊m.total_ram_gb⌋ < 16 := fun hc => h16 (l16.mp hc)
        rw [if_neg (by omega : ¬ ⌊m.total_ram_gb⌋.toNat ≤ 15), if_neg h16]
        by_cases h32 : m.total_ram_gb < 32
        · have hh : ⌊m.total_ram_gb⌋ < 32 := l32.mpr h32
          rw [if_pos (by omega : ⌊m.total_ram_gb⌋.toNat ≤ 31), if_pos h32]
        · have hh : ¬ ⌊m.total_ram_gb⌋ < 32 := fun hc => h32 (l32.mp hc)
          rw [if_neg (by omega : ¬ ⌊m.total_ram_gb⌋.toNat ≤ 31), if_neg h32]

/-- The usage fraction attached to each memory strategy (statement helper
for C9, following the spec's 0%/25%/50%/75% description). -/
def strategyFraction : MemoryStrategy → ℚ
  | .VramOnly => 0
  | .Conservative => 0.25
  | .Balanced => 0.50
  | .Aggressive => 0.75

/-- C9: `calculate_memory_allocation` chooses `VramOnly` whenever utilization
exceeds 85% or available RAM is below 4 GB; otherwise it buckets by total
RAM (`<8` VramOnly, `8–15` Conservative, `16–31` Balanced, `≥32`
Aggressive); and `recommended_usage_gb` equals the strategy's fraction of
`available − safety_margin`, floored at 0 and capped at `max_usage_gb`.
The cap is non-negative for every detector the program can build (the
default is 8 and the builder clamps to at least 1), stated as the
hypothesis. -/
theorem memoryAllocation_strategy_and_usage (d : SystemMemoryDetector)
    (m : SystemMemoryInfo) (hM : 0 ≤ d.max_usage_gb) :
    ((85 < m.utilization_percent ∨ m.available_ram_gb < 4 →
      (d.calculate_memory_allocation m).allocation_strategy = MemoryStrategy.VramOnly)
    ∧ (¬(85 < m.utilization_percent ∨ m.available_ram_gb < 4) →
        (m.total_ram_gb < 8 →
          (d.calculate_memory_allocation m).allocation_strategy = MemoryStrategy.VramOnly)
        ∧ (8 ≤ m.total_ram_gb → m.total_ram_gb < 16 →
          (d.calculate_memory_allocation m).allocation_strategy = MemoryStrategy.Conservative)
        ∧ (16 ≤ m.total_ram_gb → m.total_ram_gb < 32 →
          (d.calculate_memory_allocation m).allocation_strategy = MemoryStrategy.Balanced)
        ∧ (32 ≤ m.total_ram_gb →
          (d.calculate_memory_allocation m).allocation_strategy = MemoryStrategy.Aggressive)))
    ∧ (d.calculate_memory_allocation m).recommended_usage_gb =
        min (max (strategyFraction (d.calculate_memory_allocation m).allocation_strategy
          * (m.available_ram_gb - d.safety_margin_gb)) 0) d.max_usage_gb := by
  have hstrat : (d.calculate_memory_allocation m).allocation_strategy =
      d.determine_strategy m := rfl
  constructor
  · constructor
    · intro hp
      rw [hstrat, determine_strategy_eq, if_pos hp]
    · intro hp
      rw [hstrat, determine_strategy_eq, if_neg hp]
      refine ⟨fun h8 => ?_, fun h8 h16 => ?_, fun h16 h32 => ?_, fun h32 => ?_⟩
      · rw [if_pos h8]
      · rw [if_neg (by linarith), if_pos h16]
      · rw [if_neg (by linarith), if_neg (by linarith), if_pos h32]
      · rw [if_neg (by linarith), if_neg (by linarith), if_neg (by linarith)]
  · show max _ 0 = _
    rw [hstrat]
    rcases hs : d.determine_strategy m with _ | _ | _ | _ <;>
      simp only [SystemMemoryDetector.calculate_memory_allocation, hs, strategyFraction]
    · rw [zero_mul, max_self, min_eq_left hM]
    · rw [max_mul_of_nonneg _ _ (by norm_num : (0:ℚ) ≤ 0.25), zero_mul,
        max_eq_left (le_min (le_max_right _ _) hM), mul_comm]
    · rw [max_mul_of_nonneg _ _ (by norm_num : (0:ℚ) ≤ 0.50), zero_mul,
        max_eq_left (le_min (le_max_right _ _) hM), mul_comm]
    · rw [max_mul_of_nonneg _ _ (by norm_num : (0:ℚ) ≤ 0.75), zero_mul,
        max_eq_left (le_min (le_max_right _ _) hM), mul_comm]

/-- Witness for C9 at the default detector and a 16 GB / 10 GB-available
snapshot at 37.5% utilization. -/
theorem memoryAllocation_strategy_and_usage_witness :
    0 ≤ SystemMemoryDetector.new.max_usage_gb
    ∧ ((85 < (37.5 : ℚ) ∨ (10 : ℚ) < 4 →
      (SystemMemoryDetector.new.calculate_memory_allocation
        { total_ram_gb := 16, available_ram_gb := 10, used_ram_gb := 6,
          utilization_percent := 37.5, platform := "test",
          detection_method := "test" }).allocation_strategy = MemoryStrategy.VramOnly)
    ∧ (¬(85 < (37.5 : ℚ) ∨ (10 : ℚ) < 4) →
        ((16 : ℚ) < 8 →
          (SystemMemoryDetector.new.calculate_memory_allocation
            { total_ram_gb := 16, available_ram_gb := 10, used_ram_gb := 6,
              utilization_percent := 37.5, platform := "test",
              detection_method := "test" }).allocation_strategy = MemoryStrategy.VramOnly)
        ∧ (8 ≤ (16 : ℚ) → (16 : ℚ) < 16 →
          (SystemMemoryDetector.new.calculate_memory_allocation
            { total_ram_gb := 16, available_ram_gb := 10, used_ram_gb := 6,
              utilization_percent := 37.5, platform := "test",
              detection_method := "test" }).allocation_strategy = MemoryStrategy.Conservative)
        ∧ (16 ≤ (16 : ℚ) → (16 : ℚ) < 32 →
          (SystemMemoryDetector.new.calculate_memory_allocation
            { total_ram_gb := 16, available_ram_gb := 10, used_ram_gb := 6,
              utilization_percent := 37.5, platform := "test",
              detection_method := "test" }).allocation_strategy = MemoryStrategy.Balanced)
        ∧ (32 ≤ (16 : ℚ) →
          (SystemMemoryDetector.new.calculate_memory_allocation
            { total_ram_gb := 16, available_ram_gb := 10, used_ram_gb := 6,
              utilization_percent := 37.5, platform := "test",
              detection_method := "test" }).allocation_strategy = MemoryStrategy.Aggressive)))
    ∧ (SystemMemoryDetector.new.calculate_memory_allocation
        { total_ram_gb := 16, available_ram_gb := 10, used_ram_gb := 6,
          utilization_percent := 37.5, platform := "test",
          detection_method := "test" }).recommended_usage_gb =
        min (max (strategyFraction
          (SystemMemoryDetector.new.calculate_memory_allocation
            { total_ram_gb := 16, available_ram_gb := 10, used_ram_gb := 6,
              utilization_percent := 37.5, platform := "test",
              detection_method := "test" }).allocation_strategy
          * ((10 : ℚ) - SystemMemoryDetector.new.safety_margin_gb)) 0)
          SystemMemoryDetector.new.max_usage_gb := by
  have hM : 0 ≤ SystemMemoryDetector.new.max_usage_gb := by
    show (0:ℚ) ≤ 8
    norm_num
  exact ⟨hM, memoryAllocation_strategy_and_usage SystemMemoryDetector.new
    { total_ram_gb := 16, available_ram_gb := 10, used_ram_gb := 6,
      utilization_percent := 37.5, platform := "test",
      detection_method := "test" } hM⟩

/-! ## context_manager.rs : response-budget crisis handling

`handle_response_budget_crisis` probes live system memory in its first two
strategies (`try_expand_context_window`, `can_expand_ram_allocation` shell
out to the OS through the detector).  Those probe outcomes are the only
effectful inputs; they are passed in as an explicit `CrisisEnv`, and the
rest of the control flow is translated verbatim. -/

/-- The fields of `ConfigView` (database.rs) that the context manager's
budget logic reads.  The omitted fields (device, model path, prompt
template, GPU-layer settings) are never consulted by the functions
embedded here. -/
structure ConfigView where
  context_window_size : Nat
  max_response_tokens : Nat
  enable_dynamic_context : Bool
  vram_limit_gb : Nat
  enable_hybrid_context : Bool
  max_system_ram_usage_gb : Nat
  context_expansion_strategy : String
  ram_safety_margin_gb : Nat
  deriving Repr, DecidableEq

/-- `HybridStrategy` from `context_manager.rs`. -/
inductive HybridStrategy where
  | VramOnly
  | Conservative -- +25% context using RAM
  | Balanced     -- +50% context using RAM
  | Aggressive   -- +100% context using RAM
  deriving Repr, DecidableEq

/-- `HybridContextAllocation` from `context_manager.rs`. -/
structure HybridContextAllocation where
  total_context_tokens : Nat
  vram_context_tokens : Nat
  system_ram_context_tokens : Nat
  allocation_strategy : HybridStrategy
  system_memory_info : SystemMemoryInfo
  deriving Repr, DecidableEq

/-- `ContextManager` from `context_manager.rs` (state fields). -/
structure ContextManager where
  config : ConfigView
  token_budget : TokenBudget
  usage_monitor : TokenUsageMonitor
  system_memory_detector : SystemMemoryDetector
  hybrid_context_allocation : Option HybridContextAllocation
  -- Legacy fields for backward compatibility
  system_token_budget : Nat
  attitude_token_budget : Nat
  message_token_budget : Nat
  response_token_budget : Nat
  deriving Repr, DecidableEq

/-- Outcomes of the two live memory probes used by
`handle_response_budget_crisis`: the hybrid allocation that
`try_expand_context_window` would build now (strategy 1), and whether
`can_expand_ram_allocation` approves growth (strategy 2). -/
structure CrisisEnv where
  try_expand_result : Option HybridContextAllocation
  can_expand_ram : Bool
  deriving Repr, DecidableEq

/-- `ContextManager::expand_ram_allocation`.
`(tokens as f32 * 1.5) as usize` is the exact `tokens * 3 / 2` for every
token count below `2²³` (1.5 is a dyadic `f32` constant, the product needs
one extra significand bit); context token counts never approach that. -/
def ContextManager.expand_ram_allocation (cm : ContextManager) :
    Option HybridContextAllocation :=
  match cm.hybrid_context_allocation with
  | some current =>
    -- Try to increase RAM allocation by 50%
    let new_ram_tokens := current.system_ram_context_tokens * 3 / 2
    let new_total_tokens := current.vram_context_tokens + new_ram_tokens
    -- Don't exceed configured maximum
    let final_total := min new_total_tokens cm.config.context_window_size
    let final_ram :=
      if current.vram_context_tokens < final_total then
        final_total - current.vram_context_tokens
      else current.system_ram_context_tokens
    if current.system_ram_context_tokens < final_ram then
      some { total_context_tokens := final_total
             vram_context_tokens := current.vram_context_tokens
             system_ram_context_tokens := final_ram
             allocation_strategy := current.allocation_strategy
             system_memory_info := current.system_memory_info }
    else none
  | none => none

/-- `ContextManager::recalculate_token_budget`. -/
def ContextManager.recalculate_token_budget (cm : ContextManager) : ContextManager :=
  match cm.hybrid_context_allocation with
  | some alloc =>
    let tb := TokenBudget.from_vram_limit cm.config.vram_limit_gb
      alloc.total_context_tokens
    { cm with token_budget := tb
              usage_monitor := TokenUsageMonitor.new tb
              system_token_budget := tb.system_prompt
              attitude_token_budget := tb.attitude_data
              message_token_budget := tb.recent_messages
              response_token_budget := tb.response_buffer }
  | none => cm

/-- `ContextManager::reallocate_token_budget_for_response`.
`(x as f32 * 0.25) as usize = x / 4` and `(x as f32 * 0.50) as usize = x / 2`
exactly (dyadic constants, exact products for all category sizes, which
never exceed the 4096-token budget cap).  The `usize` subtractions cannot
underflow because each reduction is a floor of a fraction of the field it
is subtracted from. -/
def ContextManager.reallocate_token_budget_for_response (cm : ContextManager) :
    ContextManager :=
  -- Reduce attitude allocation by 25%
  let attitude_reduction := cm.token_budget.attitude_data / 4
  -- Reduce third-party allocation by 50%
  let third_party_reduction := cm.token_budget.third_party_info / 2
  -- Increase response buffer with the freed tokens
  let additional_response_tokens := attitude_reduction + third_party_reduction
  let tb := { cm.token_budget with
    attitude_data := cm.token_budget.attitude_data - attitude_reduction
    third_party_info := cm.token_budget.third_party_info - third_party_reduction
    response_buffer := cm.token_budget.response_buffer + additional_response_tokens }
  -- Update legacy fields
  { cm with token_budget := tb
            attitude_token_budget := tb.attitude_data
            response_token_budget := tb.response_buffer }

/-- `ContextManager::handle_response_budget_crisis`: strategy 1 (build a
hybrid allocation now) if hybrid is enabled but inactive, strategy 2 (grow
the RAM component) if a hybrid allocation is active and the probe approves,
strategy 3 (intra-budget reallocation) otherwise; only the first two
return `true`. -/
def ContextManager.handle_response_budget_crisis (env : CrisisEnv)
    (cm : ContextManager) (current_response_budget : Nat) :
    ContextManager × Bool :=
  if 100 ≤ current_response_budget then (cm, false) -- No crisis
  else
    let step2 : ContextManager × Bool :=
      -- Strategy 2: Optimize existing allocation
      match cm.hybrid_context_allocation with
      | some _ =>
        if env.can_expand_ram then
          match cm.expand_ram_allocation with
          | some expanded =>
            (({ cm with hybrid_context_allocation := some expanded
              } : ContextManager).recalculate_token_budget, true)
          | none =>
            -- Strategy 3: Reallocate existing tokens more efficiently
            (cm.reallocate_token_budget_for_response, false)
        else (cm.reallocate_token_budget_for_response, false)
      | none => (cm.reallocate_token_budget_for_response, false)
    -- Strategy 1: Try to expand context window if hybrid mode is available
    if cm.config.enable_hybrid_context ∧ cm.hybrid_context_allocation.isNone then
      match env.try_expand_result with
      | some expanded =>
        (({ cm with hybrid_context_allocation := some expanded
          } : ContextManager).recalculate_token_budget, true)
      | none => step2
    else step2

/-- A hybrid-disabled manager whose budget (`from_vram_limit 4 15`, total 15)
has `attitude_data = 3` and `third_party_info = 1`: both reductions of the
step-3 reallocation floor to zero although neither category is zero. -/
def crisisStateSmall : ContextManager :=
  { config := { context_window_size := 15, max_response_tokens := 512,
                enable_dynamic_context := true, vram_limit_gb := 4,
                enable_hybrid_context := false, max_system_ram_usage_gb := 8,
                context_expansion_strategy := "auto", ram_safety_margin_gb := 2 }
    token_budget := TokenBudget.from_vram_limit 4 15
    usage_monitor := TokenUsageMonitor.new (TokenBudget.from_vram_limit 4 15)
    system_memory_detector := SystemMemoryDetector.new
    hybrid_context_allocation := none
    system_token_budget := (TokenBudget.from_vram_limit 4 15).system_prompt
    attitude_token_budget := (TokenBudget.from_vram_limit 4 15).attitude_data
    message_token_budget := (TokenBudget.from_vram_limit 4 15).recent_messages
    response_token_budget := (TokenBudget.from_vram_limit 4 15).response_buffer }

/-- A hybrid-disabled manager with the standard 2048-token budget. -/
def crisisStateStd : ContextManager :=
  { config := { context_window_size := 2048, max_response_tokens := 512,
                enable_dynamic_context := true, vram_limit_gb := 4,
                enable_hybrid_context := false, max_system_ram_usage_gb := 8,
                context_expansion_strategy := "auto", ram_safety_margin_gb := 2 }
    token_budget := TokenBudget.from_vram_limit 4 2048
    usage_monitor := TokenUsageMonitor.new (TokenBudget.from_vram_limit 4 2048)
    system_memory_detector := SystemMemoryDetector.new
    hybrid_context_allocation := none
    system_token_budget := (TokenBudget.from_vram_limit 4 2048).system_prompt
    attitude_token_budget := (TokenBudget.from_vram_limit 4 2048).attitude_data
    message_token_budget := (TokenBudget.from_vram_limit 4 2048).recent_messages
    response_token_budget := (TokenBudget.from_vram_limit 4 2048).response_buffer }

/-- A crisis environment in which neither memory probe offers an expansion
(irrelevant when hybrid context is disabled). -/
def crisisEnvIdle : CrisisEnv :=
  { try_expand_result := none, can_expand_ram := false }

/-- Counterexample to C3 as stated: a hybrid-disabled state with
`attitude_data = 3` and `third_party_info = 1` (so not both zero) and a
response budget of 50 < 100, on which `handle_response_budget_crisis` does
not increase `response_buffer` at all — both floored reductions
(`⌊3·0.25⌋`, `⌊1·0.50⌋`) vanish. -/
theorem crisis_strict_increase_counterexample :
    crisisStateSmall.config.enable_hybrid_context = false
    ∧ crisisStateSmall.hybrid_context_allocation = none
    ∧ (50 : Nat) < 100
    ∧ ¬(crisisStateSmall.token_budget.attitude_data = 0
        ∧ crisisStateSmall.token_budget.third_party_info = 0)
    ∧ ¬(crisisStateSmall.token_budget.response_buffer <
        (ContextManager.handle_response_budget_crisis crisisEnvIdle
          crisisStateSmall 50).1.token_budget.response_buffer) := by
  refine ⟨rfl, rfl, by omega, by decide, by decide⟩

/-- C3 (amended): with hybrid context disabled and a response budget below
100, `handle_response_budget_crisis` strictly increases `response_buffer`
exactly when the floored reductions are not both zero, i.e. unless
`attitude_data ≤ 3` and `third_party_info ≤ 1` (rather than "both zero"). -/
theorem crisis_strictly_increases_response_buffer (env : CrisisEnv)
    (cm : ContextManager) (cur : Nat)
    (hh : cm.config.enable_hybrid_context = false)
    (ha : cm.hybrid_context_allocation = none)
    (hc : cur < 100) :
    (cm.token_budget.response_buffer <
        (ContextManager.handle_response_budget_crisis env cm cur).1.token_budget.response_buffer
      ↔ ¬(cm.token_budget.attitude_data < 4
          ∧ cm.token_budget.third_party_info < 2)) := by
  have h1 : ¬ (100 ≤ cur) := by omega
  simp only [ContextManager.handle_response_budget_crisis, if_neg h1, hh, ha,
    Option.isNone_none, Bool.false_eq_true, false_and, if_false,
    ContextManager.reallocate_token_budget_for_response]
  omega

/-- Witness for the amended C3 at the standard 2048-token state (attitude
409, third-party 204). -/
theorem crisis_strictly_increases_response_buffer_witness :
    crisisStateStd.config.enable_hybrid_context = false
    ∧ crisisStateStd.hybrid_context_allocation = none
    ∧ (50 : Nat) < 100
    ∧ (crisisStateStd.token_budget.response_buffer <
        (ContextManager.handle_response_budget_crisis crisisEnvIdle
          crisisStateStd 50).1.token_budget.response_buffer
      ↔ ¬(crisisStateStd.token_budget.attitude_data < 4
          ∧ crisisStateStd.token_budget.third_party_info < 2)) :=
  ⟨rfl, rfl, by omega,
    crisis_strictly_increases_response_buffer crisisEnvIdle crisisStateStd 50
      rfl rfl (by omega)⟩

/-- Counterexample to C4 as stated: on the hybrid-disabled standard state
with a response budget of 50, the step-3 reallocation changes the token
budget (response buffer 307 → 511) yet the function returns `false`. -/
theorem crisis_return_value_counterexample :
    crisisStateStd.config.enable_hybrid_context = false
    ∧ crisisStateStd.hybrid_context_allocation = none
    ∧ (ContextManager.handle_response_budget_crisis crisisEnvIdle
        crisisStateStd 50).2 = false
    ∧ (ContextManager.handle_response_budget_crisis crisisEnvIdle
        crisisStateStd 50).1.token_budget ≠ crisisStateStd.token_budget := by
  refine ⟨rfl, rfl, by decide, by decide⟩

/-- C4 (amended): `handle_response_budget_crisis` returns `true` exactly when
a hybrid context expansion occurred — strategy 1 (hybrid enabled, no active
allocation, the probe builds one) or strategy 2 (active allocation, probe
approves, growth succeeds).  The step-3 intra-budget reallocation is not
reported: the call returns `false` then, even though it moves tokens into
`response_buffer`. -/
theorem crisis_return_value_iff_expansion (env : CrisisEnv)
    (cm : ContextManager) (cur : Nat) :
    ((ContextManager.handle_response_budget_crisis env cm cur).2 = true ↔
      cur < 100 ∧
        ((cm.config.enable_hybrid_context = true
            ∧ cm.hybrid_context_allocation = none
            ∧ env.try_expand_result.isSome = true)
          ∨ (cm.hybrid_context_allocation.isSome = true
            ∧ env.can_expand_ram = true
            ∧ cm.expand_ram_allocation.isSome = true))) := by
  unfold ContextManager.handle_response_budget_crisis
  by_cases h1 : 100 ≤ cur
  · rw [if_pos h1]
    simp only [Bool.false_eq_true, false_iff]
    rintro ⟨hc, -⟩
    omega
  · rw [if_neg h1]
    have hcur : cur < 100 := by omega
    by_cases h2 : cm.config.enable_hybrid_context ∧ cm.hybrid_context_allocation.isNone
    · have halloc : cm.hybrid_context_allocation = none :=
        Option.isNone_iff_eq_none.mp h2.2
      rw [if_pos h2]
      cases htry : env.try_expand_result with
      | some a =>
        simp only [true_iff]
        exact ⟨hcur, Or.inl ⟨h2.1, halloc, rfl⟩⟩
      | none =>
        rw [halloc]
        simp only [Bool.false_eq_true, false_iff]
        rintro ⟨-, h | h⟩
        · exact absurd h.2.2 (by decide)
        · exact absurd h.1 (by decide)
    · rw [if_neg h2]
      cases halloc : cm.hybrid_context_allocation with
      | none =>
        simp only [Bool.false_eq_true, false_iff]
        rintro ⟨-, h | h⟩
        · exact h2 ⟨h.1, by rw [halloc]; rfl⟩
        · exact absurd h.1 (by decide)
      | some a =>
        by_cases hce : env.can_expand_ram
        · rw [if_pos hce]
          cases hexp : cm.expand_ram_allocation with
          | some e =>
            simp only [true_iff]
            exact ⟨hcur, Or.inr ⟨rfl, hce, rfl⟩⟩
          | none =>
            simp only [Bool.false_eq_true, false_iff]
            rintro ⟨-, h | h⟩
            · exact absurd h.2.1 (Option.some_ne_none a)
            · exact absurd h.2.2 (by decide)
        · rw [if_neg hce]
          simp only [Bool.false_eq_true, false_iff]
          rintro ⟨-, h | h⟩
          · exact absurd h.2.1 (Option.some_ne_none a)
          · exact hce h.2.1

/-! ## token_budget.rs : the three `optimize_*` entry points

The optimizers consume their items only through (a) an `f32` significance
score driving a stable descending sort and a threshold test, and (b) a token
estimate of a formatted string.  Those two ingredients depend on `f32`
rounding, `libm`'s `ln`, and Rust's float `Display` formatting, none of
which the source pins down bit-exactly; they are therefore passed in as
explicit cost functions (over exact rationals / naturals), and every
theorem below quantifies over all of them — in particular over the real
ones.  The control flow — stable sort, threshold filter, greedy fill,
compression retries, statistics updates — is translated verbatim.
Rust's `sort_by` is stable and otherwise unspecified, so any stable sort is
a faithful model; `List.mergeSort` is used. -/

/-- `Message` from `database.rs`. -/
structure Message where
  id : Int
  ai : Bool
  content : String
  created_at : String

/-- `CompanionAttitude` from `database.rs` (`f32` dimensions as `ℚ`). -/
structure CompanionAttitude where
  id : Option Int
  companion_id : Int
  target_id : Int
  target_type : String
  attraction : ℚ
  trust : ℚ
  fear : ℚ
  anger : ℚ
  joy : ℚ
  sorrow : ℚ
  disgust : ℚ
  surprise : ℚ
  curiosity : ℚ
  respect : ℚ
  suspicion : ℚ
  gratitude : ℚ
  jealousy : ℚ
  empathy : ℚ
  lust : ℚ
  love : ℚ
  anxiety : ℚ
  butterflies : ℚ
  submissiveness : ℚ
  dominance : ℚ
  relationship_score : Option ℚ
  last_updated : String
  created_at : String

/-- `ThirdPartyIndividual` from `database.rs`. -/
structure ThirdPartyIndividual where
  id : Option Int
  name : String
  relationship_to_user : Option String
  relationship_to_companion : Option String
  occupation : Option String
  personality_traits : Option String
  physical_description : Option String
  first_mentioned : String
  last_mentioned : Option String
  mention_count : Int
  importance_score : ℚ
  created_at : String
  updated_at : String

/-- The `f32`/formatting-dependent ingredients of
`optimize_attitude_context`: `score` is `calculate_attitude_significance`
(pure `f32` arithmetic over the 14 scored dimensions), `fullTokens` is
`estimate_tokens ∘ format_attitude_for_context`, `compTokens` is
`estimate_tokens ∘ compress_attitude`. -/
structure AttitudeCosts where
  score : CompanionAttitude → ℚ
  fullTokens : CompanionAttitude → Nat
  compTokens : CompanionAttitude → Nat

/-- The ingredients of `optimize_third_party_context`: `score` is
`importance_score * ln(mention_count as f32).max(1.0)` (`libm` `ln`),
`tokens` is `estimate_tokens ∘ format_third_party_for_context`. -/
structure ThirdPartyCosts where
  score : ThirdPartyIndividual → ℚ
  tokens : ThirdPartyIndividual → Nat

/-- The ingredients of `optimize_message_context`: `est` is
`estimate_tokens` on message content, `compress` is `compress_message`
(which reads `budget.recent_messages`, hence the extra `Nat` argument; its
head+tail byte slicing may panic mid-codepoint in Rust, so it is kept
abstract). -/
structure MessageCosts where
  est : String → Nat
  compress : Nat → String → String

/-- The tier-dependent significance floor of `optimize_attitude_context`. -/
def attitudeThreshold : VramTier → ℚ
  | .Minimal => 30  -- Only very significant attitudes
  | .Standard => 20 -- Moderately significant attitudes
  | .Extended => 15 -- Include more attitudes
  | .Maximum => 10  -- Include most attitudes

/-- The greedy fill loop of `optimize_attitude_context` over the sorted
list: returns the retained attitudes (processing order), the final
`current_tokens`, and the number of `attitudes_filtered` increments. -/
def attitudeLoop (C : AttitudeCosts) (budget : Nat) (threshold : ℚ) :
    List CompanionAttitude → Nat → Nat → List CompanionAttitude × Nat × Nat
  | [], current, filtered => ([], current, filtered)
  | attitude :: rest, current, filtered =>
    -- Check if attitude meets significance threshold
    if C.score attitude < threshold then
      attitudeLoop C budget threshold rest current (filtered + 1)
    else
      let attitude_tokens := C.fullTokens attitude
      if current + attitude_tokens ≤ budget then
        let r := attitudeLoop C budget threshold rest (current + attitude_tokens) filtered
        (attitude :: r.1, r.2)
      else
        -- attitudes_filtered += 1, then try compressed format for borderline cases
        if current + attitude_tokens / 2 ≤ budget then
          let compressed_tokens := C.compTokens attitude
          if current + compressed_tokens ≤ budget then
            -- the pushed object is attitude.clone(), not the compressed text
            let r := attitudeLoop C budget threshold rest (current + compressed_tokens)
              (filtered + 1)
            (attitude :: r.1, r.2)
          else attitudeLoop C budget threshold rest current (filtered + 1)
        else attitudeLoop C budget threshold rest current (filtered + 1)

/-- `TokenUsageMonitor::optimize_attitude_context` (`&mut self`; returns the
updated monitor and the filtered list). -/
def TokenUsageMonitor.optimize_attitude_context (C : AttitudeCosts)
    (m : TokenUsageMonitor) (attitudes : List CompanionAttitude) :
    TokenUsageMonitor × List CompanionAttitude :=
  let attitude_threshold := attitudeThreshold m.budget.vram_tier
  -- Sort attitudes by combined significance score (descending, stable)
  let sorted_attitudes := attitudes.mergeSort
    (fun a b => decide (C.score b ≤ C.score a))
  let r := attitudeLoop C m.budget.attitude_data attitude_threshold
    sorted_attitudes 0 0
  ({ m with
      current_usage := { m.current_usage with attitude_tokens := r.2.1 }
      optimization_stats := { m.optimization_stats with
        attitudes_filtered := m.optimization_stats.attitudes_filtered + r.2.2 } },
   r.1)

/-- The greedy fill loop of `optimize_third_party_context`. -/
def thirdPartyLoop (C : ThirdPartyCosts) (budget : Nat) :
    List ThirdPartyIndividual → Nat → Nat → List ThirdPartyIndividual × Nat × Nat
  | [], current, filtered => ([], current, filtered)
  | party :: rest, current, filtered =>
    let party_tokens := C.tokens party
    if current + party_tokens ≤ budget then
      let r := thirdPartyLoop C budget rest (current + party_tokens) filtered
      (party :: r.1, r.2)
    else thirdPartyLoop C budget rest current (filtered + 1)

/-- `TokenUsageMonitor::optimize_third_party_context`. -/
def TokenUsageMonitor.optimize_third_party_context (C : ThirdPartyCosts)
    (m : TokenUsageMonitor) (third_parties : List ThirdPartyIndividual) :
    TokenUsageMonitor × List ThirdPartyIndividual :=
  -- Sort by importance and recency (descending, stable)
  let sorted_parties := third_parties.mergeSort
    (fun a b => decide (C.score b ≤ C.score a))
  let r := thirdPartyLoop C m.budget.third_party_info sorted_parties 0 0
  ({ m with
      current_usage := { m.current_usage with third_party_tokens := r.2.1 }
      optimization_stats := { m.optimization_stats with
        third_parties_filtered :=
          m.optimization_stats.third_parties_filtered + r.2.2 } },
   r.1)

/-- The fill loop of `optimize_message_context`, over the reversed
(most-recent-first) message list; returns accepted messages in processing
order, the final `current_tokens`, and the `messages_compressed` count.
The `break` of the source ends the triple. -/
def messageLoopRev (est : String → Nat) (compress : String → String)
    (budget : Nat) : List Message → Nat → List Message × Nat × Nat
  | [], current => ([], current, 0)
  | message :: rest, current =>
    let tokens := est message.content
    if current + tokens ≤ budget then
      let r := messageLoopRev est compress budget rest (current + tokens)
      (message :: r.1, r.2)
    else if budget / 3 < tokens then
      -- Try to compress very long messages, then break
      let compressed_content := compress message.content
      let compressed_tokens := est compressed_content
      if current + compressed_tokens ≤ budget then
        ([{ message with content := compressed_content }],
         current + compressed_tokens, 1)
      else ([], current, 0)
    else ([], current, 0)

/-- `TokenUsageMonitor::optimize_message_context` (iterates `.rev()` and
`insert(0, ..)`s accepted messages, which is `reverse`, loop, `reverse`). -/
def TokenUsageMonitor.optimize_message_context (C : MessageCosts)
    (m : TokenUsageMonitor) (messages : List Message) :
    TokenUsageMonitor × List Message :=
  if messages.isEmpty then (m, messages)
  else
    let r := messageLoopRev C.est (C.compress m.budget.recent_messages)
      m.budget.recent_messages messages.reverse 0
    ({ m with
        current_usage := { m.current_usage with message_tokens := r.2.1 }
        optimization_stats := { m.optimization_stats with
          messages_compressed :=
            m.optimization_stats.messages_compressed + r.2.2 } },
     r.1.reverse)

/-- Re-running the attitude fill loop on its own output, from the same
starting token count, keeps every item and reaches the same final token
count: each retained item passes the same threshold and budget tests again
because the running totals coincide (compression-retried items are stored
uncompressed but were accounted at their compressed cost, and both facts
replay identically). -/
theorem attitudeLoop_rerun (C : AttitudeCosts) (budget : Nat) (threshold : ℚ) :
    ∀ (l : List CompanionAttitude) (current f1 f2 : Nat)
      (out : List CompanionAttitude) (cur fil : Nat),
      attitudeLoop C budget threshold l current f1 = (out, cur, fil) →
      ∃ g, attitudeLoop C budget threshold out current f2 = (out, cur, g) := by
  intro l
  induction l with
  | nil =>
    intro current f1 f2 out cur fil h
    simp only [attitudeLoop, Prod.mk.injEq] at h
    obtain ⟨h1, h2, -⟩ := h
    subst h1 h2
    exact ⟨f2, rfl⟩
  | cons a rest ih =>
    intro current f1 f2 out cur fil h
    simp only [attitudeLoop] at h
    by_cases hs : C.score a < threshold
    · rw [if_pos hs] at h
      exact ih current (f1 + 1) f2 out cur fil h
    · rw [if_neg hs] at h
      by_cases hf : current + C.fullTokens a ≤ budget
      · rw [if_pos hf] at h
        rcases hr : attitudeLoop C budget threshold rest
          (current + C.fullTokens a) f1 with ⟨out2, cur2, fil2⟩
        rw [hr] at h
        simp only [Prod.mk.injEq] at h
        obtain ⟨h1, h2, -⟩ := h
        subst h1 h2
        obtain ⟨g, hg⟩ := ih (current + C.fullTokens a) f1 f2 out2 cur2 fil2 hr
        refine ⟨g, ?_⟩
        simp only [attitudeLoop]
        rw [if_neg hs, if_pos hf, hg]
      · rw [if_neg hf] at h
        by_cases hh : current + C.fullTokens a / 2 ≤ budget
        · rw [if_pos hh] at h
          by_cases hc : current + C.compTokens a ≤ budget
          · rw [if_pos hc] at h
            rcases hr : attitudeLoop C budget threshold rest
              (current + C.compTokens a) (f1 + 1) with ⟨out2, cur2, fil2⟩
            rw [hr] at h
            simp only [Prod.mk.injEq] at h
            obtain ⟨h1, h2, -⟩ := h
            subst h1 h2
            obtain ⟨g, hg⟩ := ih (current + C.compTokens a) (f1 + 1) (f2 + 1)
              out2 cur2 fil2 hr
            refine ⟨g, ?_⟩
            simp only [attitudeLoop]
            rw [if_neg hs, if_neg hf, if_pos hh, if_pos hc, hg]
          · rw [if_neg hc] at h
            exact ih current (f1 + 1) f2 out cur fil h
        · rw [if_neg hh] at h
          exact ih current (f1 + 1) f2 out cur fil h

/-- The attitude fill loop returns a sublist of its input. -/
theorem attitudeLoop_sublist (C : AttitudeCosts) (budget : Nat) (threshold : ℚ) :
    ∀ (l : List CompanionAttitude) (current f : Nat),
      List.Sublist (attitudeLoop C budget threshold l current f).1 l := by
  intro l
  induction l with
  | nil => intro current f; simp [attitudeLoop]
  | cons a rest ih =>
    intro current f
    simp only [attitudeLoop]
    by_cases hs : C.score a < threshold
    · rw [if_pos hs]
      exact (ih current (f + 1)).cons a
    · rw [if_neg hs]
      by_cases hf : current + C.fullTokens a ≤ budget
      · rw [if_pos hf]
        exact (ih (current + C.fullTokens a) f).cons₂ a
      · rw [if_neg hf]
        by_cases hh : current + C.fullTokens a / 2 ≤ budget
        · rw [if_pos hh]
          by_cases hc : current + C.compTokens a ≤ budget
          · rw [if_pos hc]
            exact (ih (current + C.compTokens a) (f + 1)).cons₂ a
          · rw [if_neg hc]
            exact (ih current (f + 1)).cons a
        · rw [if_neg hh]
          exact (ih current (f + 1)).cons a

/-- Re-running the third-party fill loop on its own output, from the same
starting token count, keeps every item and reaches the same token count. -/
theorem thirdPartyLoop_rerun (C : ThirdPartyCosts) (budget : Nat) :
    ∀ (l : List ThirdPartyIndividual) (current f1 f2 : Nat)
      (out : List ThirdPartyIndividual) (cur fil : Nat),
      thirdPartyLoop C budget l current f1 = (out, cur, fil) →
      ∃ g, thirdPartyLoop C budget out current f2 = (out, cur, g) := by
  intro l
  induction l with
  | nil =>
    intro current f1 f2 out cur fil h
    simp only [thirdPartyLoop, Prod.mk.injEq] at h
    obtain ⟨h1, h2, -⟩ := h
    subst h1 h2
    exact ⟨f2, rfl⟩
  | cons p rest ih =>
    intro current f1 f2 out cur fil h
    simp only [thirdPartyLoop] at h
    by_cases hf : current + C.tokens p ≤ budget
    · rw [if_pos hf] at h
      rcases hr : thirdPartyLoop C budget rest (current + C.tokens p) f1
        with ⟨out2, cur2, fil2⟩
      rw [hr] at h
      simp only [Prod.mk.injEq] at h
      obtain ⟨h1, h2, -⟩ := h
      subst h1 h2
      obtain ⟨g, hg⟩ := ih (current + C.tokens p) f1 f2 out2 cur2 fil2 hr
      refine ⟨g, ?_⟩
      simp only [thirdPartyLoop]
      rw [if_pos hf, hg]
    · rw [if_neg hf] at h
      exact ih current (f1 + 1) f2 out cur fil h

/-- The third-party fill loop returns a sublist of its input. -/
theorem thirdPartyLoop_sublist (C : ThirdPartyCosts) (budget : Nat) :
    ∀ (l : List ThirdPartyIndividual) (current f : Nat),
      List.Sublist (thirdPartyLoop C budget l current f).1 l := by
  intro l
  induction l with
  | nil => intro current f; simp [thirdPartyLoop]
  | cons p rest ih =>
    intro current f
    simp only [thirdPartyLoop]
    by_cases hf : current + C.tokens p ≤ budget
    · rw [if_pos hf]
      exact (ih (current + C.tokens p) f).cons₂ p
    · rw [if_neg hf]
      exact (ih current (f + 1)).cons p

/-- Re-running the message fill loop on its own output, from the same
starting token count, keeps every message and reaches the same token count:
a message stored compressed was accounted at its compressed cost, so on the
second pass it fits outright. -/
theorem messageLoopRev_rerun (est : String → Nat) (compress : String → String)
    (budget : Nat) :
    ∀ (l : List Message) (current : Nat) (out : List Message) (cur comp : Nat),
      messageLoopRev est compress budget l current = (out, cur, comp) →
      ∃ g, messageLoopRev est compress budget out current = (out, cur, g) := by
  intro l
  induction l with
  | nil =>
    intro current out cur comp h
    simp only [messageLoopRev, Prod.mk.injEq] at h
    obtain ⟨h1, h2, -⟩ := h
    subst h1 h2
    exact ⟨0, rfl⟩
  | cons msg rest ih =>
    intro current out cur comp h
    simp only [messageLoopRev] at h
    by_cases h1 : current + est msg.content ≤ budget
    · rw [if_pos h1] at h
      rcases hr : messageLoopRev est compress budget rest
        (current + est msg.content) with ⟨out2, cur2, comp2⟩
      rw [hr] at h
      simp only [Prod.mk.injEq] at h
      obtain ⟨hA, hB, -⟩ := h
      subst hA hB
      obtain ⟨g, hg⟩ := ih (current + est msg.content) out2 cur2 comp2 hr
      refine ⟨g, ?_⟩
      simp only [messageLoopRev]
      rw [if_pos h1, hg]
    · rw [if_neg h1] at h
      by_cases h2 : budget / 3 < est msg.content
      · rw [if_pos h2] at h
        by_cases h3 : current + est (compress msg.content) ≤ budget
        · rw [if_pos h3] at h
          simp only [Prod.mk.injEq] at h
          obtain ⟨hA, hB, -⟩ := h
          subst hA hB
          refine ⟨0, ?_⟩
          simp only [messageLoopRev]
          rw [if_pos h3]
        · rw [if_neg h3] at h
          simp only [Prod.mk.injEq] at h
          obtain ⟨hA, hB, -⟩ := h
          subst hA hB
          exact ⟨0, rfl⟩
      · rw [if_neg h2] at h
        simp only [Prod.mk.injEq] at h
        obtain ⟨hA, hB, -⟩ := h
        subst hA hB
        exact ⟨0, rfl⟩

/-- If the message fill loop keeps nothing, it also spent nothing: every
accepting branch returns a non-empty list. -/
theorem messageLoopRev_nil_current (est : String → Nat)
    (compress : String → String) (budget : Nat) :
    ∀ (l : List Message) (current : Nat),
      (messageLoopRev est compress budget l current).1 = [] →
      (messageLoopRev est compress budget l current).2.1 = current := by
  intro l
  cases l with
  | nil => intro current h; rfl
  | cons msg rest =>
    intro current h
    simp only [messageLoopRev] at h ⊢
    split_ifs at h ⊢ with h1 h2 h3
    all_goals rfl

/-- Re-running `optimize_attitude_context` on its own output with a fresh
monitor over the same budget returns the same list and records the same
attitude-token usage.  The output of the first run is sorted (it is a
sublist of the stable sort's output), so the second sort is the identity,
and the fill loop replays itself. -/
theorem optimize_attitude_rerun (C : AttitudeCosts) (budget : TokenBudget)
    (attitudes : List CompanionAttitude) :
    ((TokenUsageMonitor.new budget).optimize_attitude_context C
        (((TokenUsageMonitor.new budget).optimize_attitude_context C attitudes).2)).2
      = ((TokenUsageMonitor.new budget).optimize_attitude_context C attitudes).2
    ∧ ((TokenUsageMonitor.new budget).optimize_attitude_context C
        (((TokenUsageMonitor.new budget).optimize_attitude_context C
          attitudes).2)).1.current_usage.attitude_tokens
      = ((TokenUsageMonitor.new budget).optimize_attitude_context C
          attitudes).1.current_usage.attitude_tokens := by
  have htrans : ∀ (a b c : CompanionAttitude),
      (fun a b => decide (C.score b ≤ C.score a)) a b →
      (fun a b => decide (C.score b ≤ C.score a)) b c →
      (fun a b => decide (C.score b ≤ C.score a)) a c := by
    intro a b c hab hbc
    simp only [decide_eq_true_eq] at *
    exact le_trans hbc hab
  have htotal : ∀ (a b : CompanionAttitude),
      (fun a b => decide (C.score b ≤ C.score a)) a b
        || (fun a b => decide (C.score b ≤ C.score a)) b a := by
    intro a b
    simpa using le_total (C.score b) (C.score a)
  rcases hr1 : attitudeLoop C budget.attitude_data
      (attitudeThreshold budget.vram_tier)
      (attitudes.mergeSort (fun a b => decide (C.score b ≤ C.score a))) 0 0
    with ⟨out1, cur1, fil1⟩
  have hsorted : (attitudes.mergeSort
      (fun a b => decide (C.score b ≤ C.score a))).Pairwise
      (fun a b => decide (C.score b ≤ C.score a)) :=
    List.sorted_mergeSort htrans htotal attitudes
  have hsub : List.Sublist out1 (attitudes.mergeSort
      (fun a b => decide (C.score b ≤ C.score a))) := by
    have := attitudeLoop_sublist C budget.attitude_data
      (attitudeThreshold budget.vram_tier)
      (attitudes.mergeSort (fun a b => decide (C.score b ≤ C.score a))) 0 0
    rw [hr1] at this
    exact this
  have hms : out1.mergeSort (fun a b => decide (C.score b ≤ C.score a)) = out1 :=
    List.mergeSort_of_sorted (List.Pairwise.sublist hsub hsorted)
  obtain ⟨g, hg⟩ := attitudeLoop_rerun C budget.attitude_data
    (attitudeThreshold budget.vram_tier)
    (attitudes.mergeSort (fun a b => decide (C.score b ≤ C.score a))) 0 0 0
    out1 cur1 fil1 hr1
  simp only [TokenUsageMonitor.optimize_attitude_context, TokenUsageMonitor.new,
    hr1, hms, hg]
  exact ⟨trivial, trivial⟩

/-- Re-running `optimize_third_party_context` on its own output with a fresh
monitor over the same budget returns the same list and records the same
third-party-token usage. -/
theorem optimize_third_party_rerun (C : ThirdPartyCosts) (budget : TokenBudget)
    (third_parties : List ThirdPartyIndividual) :
    ((TokenUsageMonitor.new budget).optimize_third_party_context C
        (((TokenUsageMonitor.new budget).optimize_third_party_context C
          third_parties).2)).2
      = ((TokenUsageMonitor.new budget).optimize_third_party_context C
          third_parties).2
    ∧ ((TokenUsageMonitor.new budget).optimize_third_party_context C
        (((TokenUsageMonitor.new budget).optimize_third_party_context C
          third_parties).2)).1.current_usage.third_party_tokens
      = ((TokenUsageMonitor.new budget).optimize_third_party_context C
          third_parties).1.current_usage.third_party_tokens := by
  have htrans : ∀ (a b c : ThirdPartyIndividual),
      (fun a b => decide (C.score b ≤ C.score a)) a b →
      (fun a b => decide (C.score b ≤ C.score a)) b c →
      (fun a b => decide (C.score b ≤ C.score a)) a c := by
    intro a b c hab hbc
    simp only [decide_eq_true_eq] at *
    exact le_trans hbc hab
  have htotal : ∀ (a b : ThirdPartyIndividual),
      (fun a b => decide (C.score b ≤ C.score a)) a b
        || (fun a b => decide (C.score b ≤ C.score a)) b a := by
    intro a b
    simpa using le_total (C.score b) (C.score a)
  rcases hr1 : thirdPartyLoop C budget.third_party_info
      (third_parties.mergeSort (fun a b => decide (C.score b ≤ C.score a))) 0 0
    with ⟨out1, cur1, fil1⟩
  have hsorted : (third_parties.mergeSort
      (fun a b => decide (C.score b ≤ C.score a))).Pairwise
      (fun a b => decide (C.score b ≤ C.score a)) :=
    List.sorted_mergeSort htrans htotal third_parties
  have hsub : List.Sublist out1 (third_parties.mergeSort
      (fun a b => decide (C.score b ≤ C.score a))) := by
    have := thirdPartyLoop_sublist C budget.third_party_info
      (third_parties.mergeSort (fun a b => decide (C.score b ≤ C.score a))) 0 0
    rw [hr1] at this
    exact this
  have hms : out1.mergeSort (fun a b => decide (C.score b ≤ C.score a)) = out1 :=
    List.mergeSort_of_sorted (List.Pairwise.sublist hsub hsorted)
  obtain ⟨g, hg⟩ := thirdPartyLoop_rerun C budget.third_party_info
    (third_parties.mergeSort (fun a b => decide (C.score b ≤ C.score a))) 0 0 0
    out1 cur1 fil1 hr1
  simp only [TokenUsageMonitor.optimize_third_party_context,
    TokenUsageMonitor.new, hr1, hms, hg]
  exact ⟨trivial, trivial⟩

/-- Re-running `optimize_message_context` on its own output with a fresh
monitor over the same budget returns the same list and records the same
message-token usage. -/
theorem optimize_message_rerun (C : MessageCosts) (budget : TokenBudget)
    (messages : List Message) :
    ((TokenUsageMonitor.new budget).optimize_message_context C
        (((TokenUsageMonitor.new budget).optimize_message_context C messages).2)).2
      = ((TokenUsageMonitor.new budget).optimize_message_context C messages).2
    ∧ ((TokenUsageMonitor.new budget).optimize_message_context C
        (((TokenUsageMonitor.new budget).optimize_message_context C
          messages).2)).1.current_usage.message_tokens
      = ((TokenUsageMonitor.new budget).optimize_message_context C
          messages).1.current_usage.message_tokens := by
  by_cases hemp : messages.isEmpty
  · simp [TokenUsageMonitor.optimize_message_context, hemp]
  · rcases hr1 : messageLoopRev C.est (C.compress budget.recent_messages)
        budget.recent_messages messages.reverse 0 with ⟨acc1, cur1, comp1⟩
    by_cases hnil : acc1 = []
    · subst hnil
      have hcur : cur1 = 0 := by
        have := messageLoopRev_nil_current C.est
          (C.compress budget.recent_messages) budget.recent_messages
          messages.reverse 0
        rw [hr1] at this
        exact this rfl
      subst hcur
      simp [TokenUsageMonitor.optimize_message_context, hemp, hr1,
        TokenUsageMonitor.new]
    · have hemp2 : (acc1.reverse.isEmpty) = false := by
        simp [List.isEmpty_iff, hnil]
      obtain ⟨g, hg⟩ := messageLoopRev_rerun C.est
        (C.compress budget.recent_messages) budget.recent_messages
        messages.reverse 0 acc1 cur1 comp1 hr1
      simp only [TokenUsageMonitor.optimize_message_context,
        TokenUsageMonitor.new, hemp, hr1, hemp2, Bool.false_eq_true,
        if_false, List.reverse_reverse, hg]
      exact ⟨trivial, trivial⟩

/-- C5: each optimizer, re-run on its own output with a fresh monitor holding
the same budget, returns the same items (none dropped) and records a
per-category token usage not exceeding that of the first run (in fact
equal).  The theorem quantifies over all cost functions, including the
`f32`/`ln`/formatting-defined ones of the source. -/
theorem optimizers_idempotent (AC : AttitudeCosts) (TC : ThirdPartyCosts)
    (MC : MessageCosts) (budget : TokenBudget)
    (attitudes : List CompanionAttitude)
    (third_parties : List ThirdPartyIndividual) (messages : List Message) :
    (((TokenUsageMonitor.new budget).optimize_attitude_context AC
        (((TokenUsageMonitor.new budget).optimize_attitude_context AC
          attitudes).2)).2
      = ((TokenUsageMonitor.new budget).optimize_attitude_context AC attitudes).2
    ∧ ((TokenUsageMonitor.new budget).optimize_attitude_context AC
        (((TokenUsageMonitor.new budget).optimize_attitude_context AC
          attitudes).2)).1.current_usage.attitude_tokens
      ≤ ((TokenUsageMonitor.new budget).optimize_attitude_context AC
          attitudes).1.current_usage.attitude_tokens)
    ∧ (((TokenUsageMonitor.new budget).optimize_third_party_context TC
        (((TokenUsageMonitor.new budget).optimize_third_party_context TC
          third_parties).2)).2
      = ((TokenUsageMonitor.new budget).optimize_third_party_context TC
          third_parties).2
    ∧ ((TokenUsageMonitor.new budget).optimize_third_party_context TC
        (((TokenUsageMonitor.new budget).optimize_third_party_context TC
          third_parties).2)).1.current_usage.third_party_tokens
      ≤ ((TokenUsageMonitor.new budget).optimize_third_party_context TC
          third_parties).1.current_usage.third_party_tokens)
    ∧ (((TokenUsageMonitor.new budget).optimize_message_context MC
        (((TokenUsageMonitor.new budget).optimize_message_context MC
          messages).2)).2
      = ((TokenUsageMonitor.new budget).optimize_message_context MC messages).2
    ∧ ((TokenUsageMonitor.new budget).optimize_message_context MC
        (((TokenUsageMonitor.new budget).optimize_message_context MC
          messages).2)).1.current_usage.message_tokens
      ≤ ((TokenUsageMonitor.new budget).optimize_message_context MC
          messages).1.current_usage.message_tokens) :=
  ⟨⟨(optimize_attitude_rerun AC budget attitudes).1,
    le_of_eq (optimize_attitude_rerun AC budget attitudes).2⟩,
   ⟨(optimize_third_party_rerun TC budget third_parties).1,
    le_of_eq (optimize_third_party_rerun TC budget third_parties).2⟩,
   ⟨(optimize_message_rerun MC budget messages).1,
    le_of_eq (optimize_message_rerun MC budget messages).2⟩⟩

end ConvoBot
